import Mathlib

/-!
Shallow embedding of the shopping-web backend core (cart, checkout, order
lifecycle, promotion expiry sweep) and proofs about it.

Conventions of the embedding:
* Database rows (sequelize models) are Lean structures; the whole database is
  the structure `DB`, holding one list per table.  Machine integers of the
  INTEGER columns are modelled as `ℤ` (the columns are signed).
* Instants (`Date` values) are modelled as integers (epoch milliseconds);
  `new Date()` becomes an explicit `now : ℤ` parameter of each handler.
* Each route handler becomes a pure function `... → DB → Resp × DB` returning
  the HTTP outcome and the successor database.  Requests are modelled
  sequentially: awaited storage operations happen in program order.
* JavaScript number arithmetic on prices is binary64 floating point; it is
  modelled exactly by `F64` below (mantissa/exponent over `ℤ`, round to
  nearest, ties to even, 53-bit precision).  Exponent overflow/underflow is
  not modelled: every value in scope is well inside the normal range.
  Integer-valued sums and products below 2^53 are exact in binary64, so cart
  totals and quantities are carried as `ℤ` directly.
-/

/-! ## Binary64 model -/

/-- Number of binary digits of `n` (`0` for `0`), computed with structural
recursion on a fuel argument so the kernel can evaluate it. -/
def bitsAux : ℕ → ℕ → ℕ
  | 0, _ => 0
  | fuel + 1, n => if n = 0 then 0 else bitsAux fuel (n / 2) + 1

/-- Bit length of a natural number. -/
def natBits (n : ℕ) : ℕ := bitsAux n n

/-- Bit length of the absolute value of an integer. -/
def intBits (z : ℤ) : ℤ := (natBits z.natAbs : ℤ)

/-- Round the rational `n / d` (with `d > 0`) to the nearest integer, ties to
even — the rounding used at the last place of every IEEE-754 operation. -/
def rhe (n d : ℤ) : ℤ :=
  let q := Int.fdiv n d
  let r := n - q * d
  if 2 * r < d then q
  else if d < 2 * r then q + 1
  else if Int.emod q 2 = 0 then q else q + 1

/-- A binary64 value `m * 2 ^ e` (not necessarily normalized; zero is `⟨0, 0⟩`).
The exponent range of IEEE-754 is not modelled (see the header note). -/
structure F64 where
  m : ℤ
  e : ℤ
deriving Repr, DecidableEq

/-- Mantissa of `n / d` at the scale `t`: the correctly rounded integer
`n / (d * 2 ^ t)`, for either sign of the scale `t`. -/
def scaledMantissa (n d t : ℤ) : ℤ :=
  if 0 ≤ t then rhe n (d * 2 ^ t.toNat) else rhe (n * 2 ^ (-t).toNat) d

/-- Round the positive rational `n / d` to the nearest binary64 value
(53 significant bits, ties to even). -/
def roundPosRat (n d : ℤ) : F64 :=
  let e : ℤ := intBits n - intBits d - 53
  let m1 := scaledMantissa n d e
  if m1 < 2 ^ 52 then { m := scaledMantissa n d (e - 1), e := e - 1 }
  else if 2 ^ 53 < m1 then { m := scaledMantissa n d (e + 1), e := e + 1 }
  else { m := m1, e := e }

/-- Round the rational `n / d` (with `d > 0`) to the nearest binary64 value. -/
def roundRat (n d : ℤ) : F64 :=
  if n = 0 then { m := 0, e := 0 }
  else if 0 < n then roundPosRat n d
  else
    let r := roundPosRat (-n) d
    { m := -r.m, e := r.e }

/-- The binary64 value of an integer (exact below 2 ^ 53). -/
def jsNum (z : ℤ) : F64 := roundRat z 1

/-- Binary64 multiplication: the exact product rounded to 53 bits. -/
def jsMul (x y : F64) : F64 :=
  let r := roundRat (x.m * y.m) 1
  { m := r.m, e := r.e + x.e + y.e }

/-- Binary64 division: the exact quotient rounded to 53 bits.  Division by
zero does not occur in scope (the only divisor is the constant 100). -/
def jsDiv (x y : F64) : F64 :=
  if y.m = 0 then { m := 0, e := 0 }
  else if 0 < y.m then
    let r := roundRat x.m y.m
    { m := r.m, e := r.e + x.e - y.e }
  else
    let r := roundRat (-x.m) (-y.m)
    { m := r.m, e := r.e + x.e - y.e }

/-- `Math.ceil`, read back as an integer (exact below 2 ^ 53). -/
def jsCeil (x : F64) : ℤ :=
  if 0 ≤ x.e then x.m * 2 ^ x.e.toNat
  else -(Int.fdiv (-x.m) (2 ^ (-x.e).toNat))

/-- `Math.ceil(price * (discountValue / 100))` exactly as the JavaScript
engine computes it, from `src/routes/order.ts` and `src/routes/cart.ts`. -/
def discountedPrice (price discountValue : ℤ) : ℤ :=
  jsCeil (jsMul (jsNum price) (jsDiv (jsNum discountValue) (jsNum 100)))

/-- The exact integer formula `ceiling(price * discountValue / 100)` named by
the specification (stated for comparison with `discountedPrice`). -/
def exactCeilPct (price discountValue : ℤ) : ℤ :=
  -(Int.fdiv (-(price * discountValue)) 100)

/-! ## Data model -/

/-- Row of the `product` table (fields the core reads). -/
structure Product where
  id : ℤ
  price : ℤ
  inventory : ℤ
  status : String
deriving Repr, DecidableEq

/-- Row of the `promotion` table (fields the core reads; `discountType` is
always PERCENTAGE and is omitted). -/
structure Promotion where
  id : ℤ
  startDate : ℤ
  endDate : ℤ
  discountValue : ℤ
  isActive : Bool
deriving Repr, DecidableEq

/-- Row of the `promotionItem` join table (a promotion link). -/
structure PromotionItem where
  promotionId : ℤ
  productId : ℤ
deriving Repr, DecidableEq

/-- Row of the `cart` table. -/
structure Cart where
  id : ℤ
  memberId : ℤ
deriving Repr, DecidableEq

/-- Row of the `cartItem` table, keyed by (cartId, productId). -/
structure CartItem where
  cartId : ℤ
  productId : ℤ
  quantity : ℤ
deriving Repr, DecidableEq

/-- Row of the `order` table.  `status` is one of the five enum strings. -/
structure OrderRow where
  id : ℤ
  memberId : ℤ
  recipientName : String
  recipientPhone : String
  recipientAddress : String
  status : String
  totalAmount : ℤ
  notes : Option String
  orderCreatedAt : ℤ
  orderConfirmedAt : Option ℤ
  orderShippedAt : Option ℤ
  orderDeliveredAt : Option ℤ
  orderCanceledAt : Option ℤ
deriving Repr, DecidableEq

/-- Row of the `order_item` table: the permanent snapshot of one cart line. -/
structure OrderItem where
  orderId : ℤ
  productId : ℤ
  quantity : ℤ
  price : ℤ
  discountPrice : Option ℤ
deriving Repr, DecidableEq

/-- Row of the `password_reset` table. -/
structure PasswordReset where
  token : String
  expires : ℤ
deriving Repr, DecidableEq

/-- The whole database, one list per table, plus the auto-increment counters
the modelled operations consume. -/
structure DB where
  products : List Product
  promotions : List Promotion
  promotionItems : List PromotionItem
  carts : List Cart
  cartItems : List CartItem
  orders : List OrderRow
  orderItems : List OrderItem
  passwordResets : List PasswordReset
  nextCartId : ℤ
  nextOrderId : ℤ
deriving Repr, DecidableEq

/-- Outcome of a request, abstracting the HTTP status / response body pairs
the handlers produce. -/
inductive Resp where
  /-- 200 with body -/
  | ok
  /-- 201 -/
  | created
  /-- 204 -/
  | noContent
  /-- 400, express-validator message list -/
  | validationFailed
  /-- 400 from POST cart when the product is missing or unlisted -/
  | noSuchProduct
  /-- 400 from POST cart when the requested quantity exceeds inventory -/
  | insufficientStock
  /-- 400 from POST order carrying the recomputed correct total -/
  | amountMismatch (correctAmount : ℤ)
  /-- 400 when the order does not exist (or is not the member's) -/
  | noSuchOrder
  /-- 500 from the catch-all handler -/
  | serverError
deriving Repr, DecidableEq

/-! ## Lookups shared by the handlers -/

/-- `ProductModel.findByPk` / the eager-joined product row. -/
def findProduct (db : DB) (pid : ℤ) : Option Product :=
  db.products.find? (fun p => p.id == pid)

/-- The at-most-one promotion link of a product (unique on productId). -/
def findPromotionLink (db : DB) (pid : ℤ) : Option PromotionItem :=
  db.promotionItems.find? (fun li => li.productId == pid)

/-- `PromotionModel` row by id. -/
def findPromotion (db : DB) (prid : ℤ) : Option Promotion :=
  db.promotions.find? (fun pr => pr.id == prid)

/-- `CartModel.findOne({ where: { memberId } })`. -/
def memberCart (db : DB) (memberId : ℤ) : Option Cart :=
  db.carts.find? (fun c => c.memberId == memberId)

/-- The cart items belonging to one cart. -/
def cartLinesOf (db : DB) (cartId : ℤ) : List CartItem :=
  db.cartItems.filter (fun ci => ci.cartId == cartId)

/-- One eager-loaded cart line: the item, its product row, and the product's
linked promotion when a link exists. -/
structure LoadedLine where
  item : CartItem
  product : Product
  promo : Option Promotion
deriving Repr, DecidableEq

/-- Load one cart line with its joins.  `none` models the joined accesses the
handler would crash on (missing product, dangling promotion link). -/
def loadLine (db : DB) (ci : CartItem) : Option LoadedLine :=
  match findProduct db ci.productId with
  | none => none
  | some prod =>
    match findPromotionLink db prod.id with
    | none => some { item := ci, product := prod, promo := none }
    | some li =>
      match findPromotion db li.promotionId with
      | none => none
      | some pr => some { item := ci, product := prod, promo := some pr }

/-- Load a list of cart lines with their joins. -/
def loadLines (db : DB) : List CartItem → Option (List LoadedLine)
  | [] => some []
  | ci :: rest =>
    match loadLine db ci, loadLines db rest with
    | some l, some ls => some (l :: ls)
    | _, _ => none

/-- The `CartModel.findOne` eager load at the top of POST /order: the member's
cart together with all its joined lines; `none` when the member has no cart
row (the handler then crashes on `cart!` and answers 500). -/
def loadMemberCart (db : DB) (memberId : ℤ) : Option (Cart × List LoadedLine) :=
  match memberCart db memberId with
  | none => none
  | some cart =>
    match loadLines db (cartLinesOf db cart.id) with
    | none => none
    | some lines => some (cart, lines)

/-! ## Pricing (order.ts reduce / map callbacks, cart.ts view callback) -/

/-- The `isActive` flag computed inside the POST /order callbacks:
`today >= startDate && today <= endDate && promotion.isActive`. -/
def promoApplies (now : ℤ) (p : Promotion) : Bool :=
  decide (p.startDate ≤ now) && decide (now ≤ p.endDate) && p.isActive

/-- Per-line unit price of the checkout total (`validateAmount` reduce in
POST /order): the discounted price when the promotion applies, the plain
price otherwise. -/
def checkoutUnitPrice (now : ℤ) (price : ℤ) (promo : Option Promotion) : ℤ :=
  match promo with
  | some p => if promoApplies now p then discountedPrice price p.discountValue else price
  | none => price

/-- `discountPrice` snapshotted onto an order item in POST /order
(`null` when no promotion applies). -/
def checkoutDiscountPrice (now : ℤ) (price : ℤ) (promo : Option Promotion) : Option ℤ :=
  match promo with
  | some p => if promoApplies now p then some (discountedPrice price p.discountValue) else none
  | none => none

/-- `discountPrice` of one line of the GET /cart view (cart.ts): the date
window is computed as `isWithinRange` and combined with `isActive` in the
returned object. -/
def cartViewDiscountPrice (now : ℤ) (price : ℤ) (promo : Option Promotion) : Option ℤ :=
  match promo with
  | some p =>
    let isWithinRange := decide (p.startDate ≤ now) && decide (now ≤ p.endDate)
    if p.isActive && isWithinRange then some (discountedPrice price p.discountValue) else none
  | none => none

/-- The Pricing Resolver of the specification, with the binary64 ceiling the
code actually computes: the discounted unit price when the link exists, the
promotion is active and `startDate ≤ now ≤ endDate`, and nothing otherwise. -/
def resolvedDiscount (now price : ℤ) (promo : Option Promotion) : Option ℤ :=
  match promo with
  | none => none
  | some p =>
    if p.isActive = true ∧ p.startDate ≤ now ∧ now ≤ p.endDate
    then some (discountedPrice price p.discountValue) else none

/-- The server-side total of POST /order: the reduce at order.ts 424-436. -/
def validateAmount (now : ℤ) (lines : List LoadedLine) : ℤ :=
  lines.foldl (fun acc l => acc + checkoutUnitPrice now l.product.price l.promo * l.item.quantity) 0

/-! ## Checkout (POST /order) -/

/-- The order row `OrderModel.create` inserts at order.ts 441-450. -/
def newOrderRow (now : ℤ) (id memberId : ℤ) (name phone address : String)
    (totalAmount : ℤ) (notes : Option String) : OrderRow :=
  { id := id
    memberId := memberId
    recipientName := name
    recipientPhone := phone
    recipientAddress := address
    status := "created"
    totalAmount := totalAmount
    notes := notes
    orderCreatedAt := now
    orderConfirmedAt := none
    orderShippedAt := none
    orderDeliveredAt := none
    orderCanceledAt := none }

/-- The order-item snapshot built for one cart line at order.ts 451-469. -/
def orderItemOfLine (now : ℤ) (orderId : ℤ) (l : LoadedLine) : OrderItem :=
  { orderId := orderId
    productId := l.item.productId
    quantity := l.item.quantity
    price := l.product.price
    discountPrice := checkoutDiscountPrice now l.product.price l.promo }

/-- `ProductModel.update({ inventory }, { where: { id } })`: overwrite the
inventory column of the rows with the given id. -/
def setInventory (db : DB) (pid : ℤ) (inv : ℤ) : DB :=
  { db with products :=
      db.products.map (fun p => if p.id == pid then { p with inventory := inv } else p) }

/-- One iteration of the inventory loop at order.ts 474-476: write
`inventory := (inventory read with the cart) - quantity` — an unconditional
read-modify-write, with no check against the current stock. -/
def decrementStep (db : DB) (l : LoadedLine) : DB :=
  setInventory db l.item.productId (l.product.inventory - l.item.quantity)

/-- `CartItemModel.destroy({ where: { cartId } })` at order.ts 472. -/
def clearCartItems (db : DB) (cartId : ℤ) : DB :=
  { db with cartItems := db.cartItems.filter (fun ci => !(ci.cartId == cartId)) }

/-- POST /order (order.ts 393-483): validate the recipient fields, recompute
the total, reject on mismatch, then create the order, snapshot the items,
clear the cart and overwrite the inventories.  No transaction wraps the
writes in the source; sequentially they all take effect. -/
def postOrder (now : ℤ) (memberId : ℤ) (name phone address : String)
    (totalAmount : ℤ) (notes : Option String) (db : DB) : Resp × DB :=
  if name = "" ∨ phone = "" ∨ address = "" then (Resp.validationFailed, db)
  else
    match loadMemberCart db memberId with
    | none => (Resp.serverError, db)
    | some (cart, lines) =>
      let amount := validateAmount now lines
      if totalAmount ≠ amount then (Resp.amountMismatch amount, db)
      else
        let order := newOrderRow now db.nextOrderId memberId name phone address totalAmount notes
        let db1 := { db with orders := db.orders ++ [order], nextOrderId := db.nextOrderId + 1 }
        let db2 := { db1 with orderItems := db1.orderItems ++ lines.map (orderItemOfLine now order.id) }
        let db3 := clearCartItems db2 cart.id
        let db4 := lines.foldl decrementStep db3
        (Resp.created, db4)

/-- The awaited write steps of POST /order, in program order. -/
inductive CheckoutStep where
  | createOrder
  | createOrderItems
  | clearCart
deriving Repr, DecidableEq

/-- POST /order when the awaited storage write of the named step throws.
The handler wraps the whole body in one try/catch and opens no transaction,
so the writes before the failing one stay committed and the catch answers
500 without undoing anything. -/
def postOrderFailingAt (step : CheckoutStep) (now : ℤ) (memberId : ℤ)
    (name phone address : String) (totalAmount : ℤ) (notes : Option String)
    (db : DB) : Resp × DB :=
  if name = "" ∨ phone = "" ∨ address = "" then (Resp.validationFailed, db)
  else
    match loadMemberCart db memberId with
    | none => (Resp.serverError, db)
    | some (_cart, lines) =>
      let amount := validateAmount now lines
      if totalAmount ≠ amount then (Resp.amountMismatch amount, db)
      else
        match step with
        | CheckoutStep.createOrder => (Resp.serverError, db)
        | CheckoutStep.createOrderItems =>
          let order := newOrderRow now db.nextOrderId memberId name phone address totalAmount notes
          (Resp.serverError, { db with orders := db.orders ++ [order], nextOrderId := db.nextOrderId + 1 })
        | CheckoutStep.clearCart =>
          let order := newOrderRow now db.nextOrderId memberId name phone address totalAmount notes
          let db1 := { db with orders := db.orders ++ [order], nextOrderId := db.nextOrderId + 1 }
          let db2 := { db1 with orderItems := db1.orderItems ++ lines.map (orderItemOfLine now order.id) }
          (Resp.serverError, db2)

/-! ## Cart mutation (POST /cart, PATCH /cart) -/

/-- POST /cart (cart.ts 225-259): create the cart lazily, reject a missing or
unlisted product, reject when existing + requested quantity exceeds the
current inventory, then insert or increment the line. -/
def postCart (memberId productId quantity : ℤ) (db : DB) : Resp × DB :=
  let step :=
    match memberCart db memberId with
    | some c => (c, db)
    | none =>
      let c : Cart := { id := db.nextCartId, memberId := memberId }
      (c, { db with carts := db.carts ++ [c], nextCartId := db.nextCartId + 1 })
  let cart := step.1
  let db0 := step.2
  match findProduct db0 productId with
  | none => (Resp.noSuchProduct, db0)
  | some product =>
    if product.status ≠ "1" then (Resp.noSuchProduct, db0)
    else
      match db0.cartItems.find? (fun ci => ci.cartId == cart.id && ci.productId == productId) with
      | some cartItem =>
        if cartItem.quantity + quantity > product.inventory then (Resp.insufficientStock, db0)
        else
          (Resp.created,
            { db0 with cartItems := db0.cartItems.map (fun ci =>
                if ci.cartId == cart.id && ci.productId == productId
                then { ci with quantity := cartItem.quantity + quantity } else ci) })
      | none =>
        if quantity > product.inventory then (Resp.insufficientStock, db0)
        else
          (Resp.created,
            { db0 with cartItems := db0.cartItems ++ [{ cartId := cart.id, productId := productId, quantity := quantity }] })

/-- PATCH /cart (cart.ts 314-329): look the line up by (cartId, productId) and
overwrite its quantity unconditionally — no inventory, listing or positivity
check; a missing line is silently a 204 no-op (`cartItem?.update`).  A member
without a cart row crashes on `cart!` into the 500 catch. -/
def patchCart (memberId productId quantity : ℤ) (db : DB) : Resp × DB :=
  match memberCart db memberId with
  | none => (Resp.serverError, db)
  | some cart =>
    match db.cartItems.find? (fun ci => ci.cartId == cart.id && ci.productId == productId) with
    | none => (Resp.noContent, db)
    | some _ =>
      (Resp.noContent,
        { db with cartItems := db.cartItems.map (fun ci =>
            if ci.cartId == cart.id && ci.productId == productId
            then { ci with quantity := quantity } else ci) })

/-! ## Order lifecycle (PATCH /order/:id, PATCH /admin/order/:id) -/

/-- `OrderModel.findOne({ where: { id, memberId } })`. -/
def findMemberOrder (db : DB) (memberId orderId : ℤ) : Option OrderRow :=
  db.orders.find? (fun o => o.id == orderId && o.memberId == memberId)

/-- `OrderModel.findByPk`. -/
def findOrder (db : DB) (orderId : ℤ) : Option OrderRow :=
  db.orders.find? (fun o => o.id == orderId)

/-- The order items of one order. -/
def orderItemsOf (db : DB) (orderId : ℤ) : List OrderItem :=
  db.orderItems.filter (fun it => it.orderId == orderId)

/-- The eager product join of an order's items; `none` models the crash on a
missing joined product. -/
def loadOrderItems (db : DB) : List OrderItem → Option (List (OrderItem × Product))
  | [] => some []
  | it :: rest =>
    match findProduct db it.productId, loadOrderItems db rest with
    | some p, some ps => some ((it, p) :: ps)
    | _, _ => none

/-- One iteration of the restore loop of either cancellation path: write
`inventory := (inventory read with the order) + quantity`, the same
unconditional read-modify-write as the checkout decrement. -/
def restoreStep (db : DB) (ip : OrderItem × Product) : DB :=
  setInventory db ip.1.productId (ip.2.inventory + ip.1.quantity)

/-- Update the order rows with the given id. -/
def setOrderRow (db : DB) (orderId : ℤ) (f : OrderRow → OrderRow) : DB :=
  { db with orders := db.orders.map (fun o => if o.id == orderId then f o else o) }

/-- PATCH /order/:id (order.ts 536-561), the member cancellation: find the
member's order (any current status — nothing is checked), stamp it canceled,
and add each item's quantity back onto its product's inventory. -/
def memberCancelOrder (now : ℤ) (memberId orderId : ℤ) (db : DB) : Resp × DB :=
  match findMemberOrder db memberId orderId with
  | none => (Resp.noSuchOrder, db)
  | some order =>
    match loadOrderItems db (orderItemsOf db order.id) with
    | none => (Resp.serverError, db)
    | some loaded =>
      let db1 := setOrderRow db order.id
        (fun o => { o with status := "canceled", orderCanceledAt := some now })
      (Resp.noContent, loaded.foldl restoreStep db1)

/-- Is `s` one of the five values of the `status` ENUM column? -/
def enumStatus (s : String) : Bool :=
  s == "created" || s == "confirmed" || s == "shipped" || s == "delivered" || s == "canceled"

/-- The `updateData` switch of the admin status route: the new status plus the
matching timestamp (none for "created", the default case). -/
def applyStatusStamp (now : ℤ) (status : String) (o : OrderRow) : OrderRow :=
  if status == "confirmed" then { o with status := status, orderConfirmedAt := some now }
  else if status == "shipped" then { o with status := status, orderShippedAt := some now }
  else if status == "delivered" then { o with status := status, orderDeliveredAt := some now }
  else if status == "canceled" then { o with status := status, orderCanceledAt := some now }
  else { o with status := status }

/-- PATCH /admin/order/:id (admin/order.ts 337-399): any order, any requested
status — no transition check of any kind; a string outside the ENUM is
rejected by the database (500, nothing written).  On "canceled" the restore
loop runs, whatever the previous status was. -/
def adminSetStatus (now : ℤ) (orderId : ℤ) (status : String) (db : DB) : Resp × DB :=
  match findOrder db orderId with
  | none => (Resp.noSuchOrder, db)
  | some order =>
    match loadOrderItems db (orderItemsOf db order.id) with
    | none => (Resp.serverError, db)
    | some loaded =>
      if enumStatus status then
        let db1 := setOrderRow db order.id (applyStatusStamp now status)
        if status == "canceled" then (Resp.noContent, loaded.foldl restoreStep db1)
        else (Resp.noContent, db1)
      else (Resp.serverError, db)

/-! ## Expiry sweep (app.ts cron job) -/

/-- The findAll filter of the sweep: `endDate < now` and `isActive`. -/
def promoExpired (now : ℤ) (p : Promotion) : Bool :=
  decide (p.endDate < now) && p.isActive

/-- One iteration of the sweep's forEach: destroy the promotion's links, then
save it with `isActive := false`. -/
def sweepPromotionStep (db : DB) (p : Promotion) : DB :=
  { db with
    promotionItems := db.promotionItems.filter (fun li => !(li.promotionId == p.id))
    promotions := db.promotions.map (fun q => if q.id == p.id then { q with isActive := false } else q) }

/-- The daily cron body (app.ts 22-59): deactivate every expired active
promotion after deleting its links, then destroy every expired
password-reset token. -/
def sweep (now : ℤ) (db : DB) : DB :=
  let expired := db.promotions.filter (promoExpired now)
  let db1 := expired.foldl sweepPromotionStep db
  { db1 with passwordResets := db1.passwordResets.filter (fun t => !(decide (t.expires < now))) }

/-- The inventory column of a product row, for stating properties. -/
def getInventory (db : DB) (pid : ℤ) : Option ℤ :=
  (findProduct db pid).map (fun p => p.inventory)

/-! ## Concrete fixtures used by the claim theorems and witnesses -/

/-- C1 fixture: one listed product with inventory 3, one empty cart. -/
def dbC1 : DB :=
  { products := [{ id := 1, price := 10, inventory := 3, status := "1" }]
    promotions := []
    promotionItems := []
    carts := [{ id := 1, memberId := 1 }]
    cartItems := []
    orders := []
    orderItems := []
    passwordResets := []
    nextCartId := 2
    nextOrderId := 1 }

/-- C2 fixture: a cart holding 2 units of a product priced 7, inventory 10. -/
def dbC2 : DB :=
  { products := [{ id := 1, price := 7, inventory := 10, status := "1" }]
    promotions := []
    promotionItems := []
    carts := [{ id := 1, memberId := 1 }]
    cartItems := [{ cartId := 1, productId := 1, quantity := 2 }]
    orders := []
    orderItems := []
    passwordResets := []
    nextCartId := 2
    nextOrderId := 1 }

/-- C3 fixture: an active promotion of 7 percent, date window containing 0. -/
def promoC3 : Promotion :=
  { id := 1, startDate := -10, endDate := 10, discountValue := 7, isActive := true }

/-- C4/C5 fixture: a cart holding 2 units of a product priced 10, inventory 5. -/
def dbC4 : DB :=
  { products := [{ id := 1, price := 10, inventory := 5, status := "1" }]
    promotions := []
    promotionItems := []
    carts := [{ id := 1, memberId := 1 }]
    cartItems := [{ cartId := 1, productId := 1, quantity := 2 }]
    orders := []
    orderItems := []
    passwordResets := []
    nextCartId := 2
    nextOrderId := 1 }

/-- The loaded line of `dbC4`. -/
def linesC4 : List LoadedLine :=
  [{ item := { cartId := 1, productId := 1, quantity := 2 }
     product := { id := 1, price := 10, inventory := 5, status := "1" }
     promo := none }]

/-- C6 fixture: a created order of 2 units of product 1, inventory 3. -/
def dbC6 : DB :=
  { products := [{ id := 1, price := 10, inventory := 3, status := "1" }]
    promotions := []
    promotionItems := []
    carts := []
    cartItems := []
    orders := [{ id := 1, memberId := 1, recipientName := "n", recipientPhone := "p",
                 recipientAddress := "a", status := "created", totalAmount := 20,
                 notes := none, orderCreatedAt := 0, orderConfirmedAt := none,
                 orderShippedAt := none, orderDeliveredAt := none, orderCanceledAt := none }]
    orderItems := [{ orderId := 1, productId := 1, quantity := 2, price := 10, discountPrice := none }]
    passwordResets := []
    nextCartId := 1
    nextOrderId := 2 }

/-- C7 fixture: the order of `dbC6` already delivered. -/
def dbC7 : DB :=
  { dbC6 with orders := [{ id := 1, memberId := 1, recipientName := "n", recipientPhone := "p",
                           recipientAddress := "a", status := "delivered", totalAmount := 20,
                           notes := none, orderCreatedAt := 0, orderConfirmedAt := some 1,
                           orderShippedAt := some 2, orderDeliveredAt := some 3,
                           orderCanceledAt := none }] }

/-- C7 fixture: the order of `dbC6` already shipped. -/
def dbC7b : DB :=
  { dbC6 with orders := [{ id := 1, memberId := 1, recipientName := "n", recipientPhone := "p",
                           recipientAddress := "a", status := "shipped", totalAmount := 20,
                           notes := none, orderCreatedAt := 0, orderConfirmedAt := some 1,
                           orderShippedAt := some 2, orderDeliveredAt := none,
                           orderCanceledAt := none }] }

/-- C9 fixture: member 1 owns a cart with no lines at all. -/
def dbC9 : DB :=
  { products := []
    promotions := []
    promotionItems := []
    carts := [{ id := 1, memberId := 1 }]
    cartItems := []
    orders := []
    orderItems := []
    passwordResets := []
    nextCartId := 2
    nextOrderId := 1 }

/-- C10 fixture: member 1 owns a cart with one line (product 5, quantity 2). -/
def dbC10 : DB :=
  { products := []
    promotions := []
    promotionItems := []
    carts := [{ id := 1, memberId := 1 }]
    cartItems := [{ cartId := 1, productId := 5, quantity := 2 }]
    orders := []
    orderItems := []
    passwordResets := []
    nextCartId := 2
    nextOrderId := 1 }

/-! ## Claim theorems -/

/-- Claim C1 (code_bug): the claimed invariant "inventory never goes below
zero; an oversized checkout fails as a late InsufficientInventory with no
decrement" is violated by the code.  Through exposed operations only —
add one unit to the cart (passes the stock check), PATCH the quantity to 5
(no check at all), then check out with the matching total — the checkout
answers 201 and writes inventory −2. -/
theorem claim1_checkout_drives_inventory_negative :
    (postCart 1 1 1 dbC1).1 = Resp.created
    ∧ (patchCart 1 1 5 (postCart 1 1 1 dbC1).2).1 = Resp.noContent
    ∧ (postOrder 0 1 "n" "p" "a" 50 none (patchCart 1 1 5 (postCart 1 1 1 dbC1).2).2).1
        = Resp.created
    ∧ getInventory (postOrder 0 1 "n" "p" "a" 50 none (patchCart 1 1 5 (postCart 1 1 1 dbC1).2).2).2 1
        = some (-2) := by
  decide

/-- Claim C2 (code_bug): no transaction wraps the checkout writes, so a
storage failure at the cart-clearing step leaves the Order and its
OrderItems committed while the handler reports 500 — nothing is rolled
back, contradicting the claimed all-or-nothing behaviour (the claim's
"no Order or OrderItem row remains" fails). -/
theorem claim2_failed_checkout_leaves_partial_state :
    (postOrderFailingAt CheckoutStep.clearCart 0 1 "n" "p" "a" 14 none dbC2).1
      = Resp.serverError
    ∧ (findOrder (postOrderFailingAt CheckoutStep.clearCart 0 1 "n" "p" "a" 14 none dbC2).2 1).isSome
        = true
    ∧ (postOrderFailingAt CheckoutStep.clearCart 0 1 "n" "p" "a" 14 none dbC2).2.orderItems ≠ []
    ∧ (postOrderFailingAt CheckoutStep.clearCart 0 1 "n" "p" "a" 14 none dbC2).2.cartItems
        = dbC2.cartItems
    ∧ getInventory (postOrderFailingAt CheckoutStep.clearCart 0 1 "n" "p" "a" 14 none dbC2).2 1
        = some 10 := by
  decide

set_option maxRecDepth 8000 in
/-- Claim C3 counterexample: for price 100 and an applying 7-percent
promotion, both the checkout price and the cart-view price are 8, while the
exact integer ceiling the claim names is ceiling(100 * 7 / 100) = 7: the
JavaScript engine computes Math.ceil(100 * (7 / 100)) over binary64, where
100 * 0.07 rounds to 7.000000000000001. -/
theorem claim3_counterexample_float_ceiling :
    checkoutUnitPrice 0 100 (some promoC3) = 8
    ∧ cartViewDiscountPrice 0 100 (some promoC3) = some 8
    ∧ exactCeilPct 100 7 = 7 := by
  decide

/-- Claim C6 (code_bug): neither cancellation path checks the current
status, so canceling the same order twice re-applies the inventory
restoration: after the first member cancel inventory is 3 + 2 = 5, and a
second cancel of the already-canceled order again answers 204 and writes
5 + 2 = 7 instead of rejecting. -/
theorem claim6_double_cancel_double_restores :
    (memberCancelOrder 5 1 1 dbC6).1 = Resp.noContent
    ∧ getInventory (memberCancelOrder 5 1 1 dbC6).2 1 = some 5
    ∧ ((findOrder (memberCancelOrder 5 1 1 dbC6).2 1).map (fun o => o.status)) = some "canceled"
    ∧ (memberCancelOrder 6 1 1 (memberCancelOrder 5 1 1 dbC6).2).1 = Resp.noContent
    ∧ getInventory (memberCancelOrder 6 1 1 (memberCancelOrder 5 1 1 dbC6).2).2 1 = some 7 := by
  decide

/-- Claim C7 (code_bug): the admin status route applies any requested enum
status with no transition check: canceling a delivered order is accepted
(204), the terminal state is left, and the restore loop even runs; moving a
shipped order back to confirmed is accepted as well.  The claim's "rejected
and leaves the order unchanged" fails. -/
theorem claim7_status_transitions_unguarded :
    (adminSetStatus 9 1 "canceled" dbC7).1 = Resp.noContent
    ∧ ((findOrder (adminSetStatus 9 1 "canceled" dbC7).2 1).map (fun o => o.status))
        = some "canceled"
    ∧ getInventory (adminSetStatus 9 1 "canceled" dbC7).2 1 = some 5
    ∧ (adminSetStatus 9 1 "confirmed" dbC7b).1 = Resp.noContent
    ∧ ((findOrder (adminSetStatus 9 1 "confirmed" dbC7b).2 1).map (fun o => o.status))
        = some "confirmed" := by
  decide

/-! ## Helper lemmas -/

/-- Deactivating a promotion row does not change its id. -/
theorem deactivate_id (q : Promotion) : ({ q with isActive := false } : Promotion).id = q.id := rfl

/-- The promotions table after the sweep's forEach over `l`: exactly the rows
whose id occurs in `l` are switched to inactive. -/
theorem foldl_sweepStep_promotions (l : List Promotion) (db : DB) :
    (l.foldl sweepPromotionStep db).promotions
      = db.promotions.map (fun q =>
          if l.any (fun p => q.id == p.id) then { q with isActive := false } else q) := by
  induction l generalizing db with
  | nil => simp
  | cons p t ih =>
    rw [List.foldl_cons, ih]
    have hstep : (sweepPromotionStep db p).promotions
        = db.promotions.map (fun q => if q.id == p.id then { q with isActive := false } else q) := rfl
    rw [hstep, List.map_map]
    refine List.map_congr_left ?_
    intro q _
    by_cases hq : q.id == p.id
    · simp [Function.comp, hq, List.any_cons, deactivate_id]
    · simp [Function.comp, hq, List.any_cons]

/-- The promotions table after one sweep, characterized against the original
table. -/
theorem sweep_promotions (now : ℤ) (db : DB) :
    (sweep now db).promotions
      = db.promotions.map (fun q =>
          if (db.promotions.filter (promoExpired now)).any (fun p => q.id == p.id)
          then { q with isActive := false } else q) := by
  have h : (sweep now db).promotions
      = ((db.promotions.filter (promoExpired now)).foldl sweepPromotionStep db).promotions := rfl
  rw [h, foldl_sweepStep_promotions]

/-- After one sweep no promotion matches the sweep's filter any more. -/
theorem sweep_no_expired (now : ℤ) (db : DB) :
    (sweep now db).promotions.filter (promoExpired now) = [] := by
  rw [sweep_promotions, List.filter_eq_nil_iff]
  intro q hq
  rcases List.mem_map.mp hq with ⟨q0, hq0, rfl⟩
  by_cases h : (db.promotions.filter (promoExpired now)).any (fun p => q0.id == p.id)
  · simp [h, promoExpired]
  · simp only [h, if_neg, Bool.false_eq_true, if_false]
    intro hexp
    exact h (List.any_eq_true.mpr ⟨q0, List.mem_filter.mpr ⟨hq0, hexp⟩, beq_self_eq_true q0.id⟩)

/-- Filtering twice with the same predicate equals filtering once. -/
theorem filterTwice_eq {α : Type} (p : α → Bool) (l : List α) :
    (l.filter p).filter p = l.filter p := by
  induction l with
  | nil => rfl
  | cons a t ih =>
    by_cases h : p a
    · simp [List.filter_cons, h, ih]
    · simp [List.filter_cons, h, ih]

/-- Unfolded form of `sweep`. -/
theorem sweep_eq (now : ℤ) (db : DB) :
    sweep now db
      = { (db.promotions.filter (promoExpired now)).foldl sweepPromotionStep db with
          passwordResets :=
            ((db.promotions.filter (promoExpired now)).foldl sweepPromotionStep db).passwordResets.filter
              (fun t => !(decide (t.expires < now))) } := rfl

/-- Claim C8 (confirmed): the daily sweep is idempotent — a second run over
the state the first run produced changes nothing: the first run deactivated
every promotion with endDate < now and isActive, so the second finds no
matching promotion, and every expired password-reset token is already gone. -/
theorem claim8_sweep_idempotent (now : ℤ) (db : DB) :
    sweep now (sweep now db) = sweep now db := by
  have h1 : (sweep now db).promotions.filter (promoExpired now) = [] := sweep_no_expired now db
  have h2 : (sweep now db).passwordResets.filter (fun t => !(decide (t.expires < now)))
      = (sweep now db).passwordResets := by
    have h3 : (sweep now db).passwordResets
        = ((db.promotions.filter (promoExpired now)).foldl sweepPromotionStep db).passwordResets.filter
            (fun t => !(decide (t.expires < now))) := rfl
    rw [h3, filterTwice_eq]
  rw [sweep_eq now (sweep now db), h1]
  rw [List.foldl_nil]
  rw [h2]

/-- Claim C3 as amended (corrected): both pricing sites — the checkout total
and item snapshot of POST /order, and the GET /cart view — resolve the
effective unit price identically: the binary64 ceiling `discountedPrice`
when the linked promotion is active and the date window contains now, and
the plain product price (no discount) otherwise. -/
theorem claim3_amended_pricing (now price : ℤ) (promo : Option Promotion) :
    checkoutUnitPrice now price promo = (resolvedDiscount now price promo).getD price
    ∧ checkoutDiscountPrice now price promo = resolvedDiscount now price promo
    ∧ cartViewDiscountPrice now price promo = resolvedDiscount now price promo := by
  rcases promo with _ | p
  · simp [checkoutUnitPrice, checkoutDiscountPrice, cartViewDiscountPrice, resolvedDiscount]
  · by_cases h1 : p.startDate ≤ now <;> by_cases h2 : now ≤ p.endDate <;>
      cases h3 : p.isActive <;>
      simp [checkoutUnitPrice, checkoutDiscountPrice, cartViewDiscountPrice, resolvedDiscount,
            promoApplies, h1, h2, h3]

/-- A loaded line records the cart item it came from and that item's joined
product row. -/
theorem loadLine_spec (db : DB) (ci : CartItem) (l : LoadedLine)
    (h : loadLine db ci = some l) :
    l.item = ci ∧ findProduct db ci.productId = some l.product := by
  unfold loadLine at h
  split at h
  · cases h
  · rename_i prod hp
    split at h
    · injection h with h4
      subst h4
      exact ⟨rfl, hp⟩
    · rename_i li hl
      split at h
      · cases h
      · injection h with h4
        subst h4
        exact ⟨rfl, hp⟩

/-- Every line produced by the eager cart load carries the product row the
database holds for its productId. -/
theorem loadLines_product (db : DB) (items : List CartItem) (lines : List LoadedLine)
    (h : loadLines db items = some lines) :
    ∀ l ∈ lines, findProduct db l.item.productId = some l.product := by
  induction items generalizing lines with
  | nil =>
    intro l hl
    unfold loadLines at h
    injection h with h1
    subst h1
    cases hl
  | cons ci rest ih =>
    intro l hl
    unfold loadLines at h
    split at h
    · rename_i l0 ls h1 h2
      injection h with h3
      subst h3
      rcases List.mem_cons.mp hl with rfl | hmem
      · obtain ⟨hitem, hprod⟩ := loadLine_spec db ci l h1
        rw [hitem]
        exact hprod
      · exact ih ls h2 l hmem
    · cases h

/-- Split the eager top-of-checkout load into its two lookups. -/
theorem loadMemberCart_lines (db : DB) (memberId : ℤ) (cart : Cart) (lines : List LoadedLine)
    (h : loadMemberCart db memberId = some (cart, lines)) :
    loadLines db (cartLinesOf db cart.id) = some lines ∧ memberCart db memberId = some cart := by
  unfold loadMemberCart at h
  split at h
  · cases h
  · rename_i c h1
    split at h
    · cases h
    · rename_i ls h2
      injection h with h3
      cases h3
      exact ⟨h2, h1⟩

/-- The inventory overwrite leaves every row's id in place. -/
theorem setInv_map_id (target v : ℤ) (p : Product) :
    ((if p.id == target then { p with inventory := v } else p) : Product).id = p.id := by
  by_cases hc : p.id == target <;> simp [hc]

/-- Looking up a different id is unaffected by an inventory overwrite. -/
theorem findProduct_setInventory_ne (db : DB) (pid target v : ℤ) (h : pid ≠ target) :
    findProduct (setInventory db target v) pid = findProduct db pid := by
  show ((db.products.map fun p => if p.id == target then { p with inventory := v } else p).find?
          fun p => p.id == pid)
      = db.products.find? fun p => p.id == pid
  rw [List.find?_map]
  have hpred : ((fun p : Product => p.id == pid) ∘
      (fun p : Product => if p.id == target then { p with inventory := v } else p))
      = fun p : Product => p.id == pid := by
    funext p
    show (((if p.id == target then { p with inventory := v } else p) : Product).id == pid)
        = (p.id == pid)
    rw [setInv_map_id]
  rw [hpred]
  cases hf : db.products.find? (fun p => p.id == pid) with
  | none => rfl
  | some p0 =>
    have hp0 := List.find?_some hf
    have hpe : p0.id = pid := by simpa using hp0
    have hne : (p0.id == target) = false := by
      rw [hpe]
      exact beq_eq_false_iff_ne.mpr h
    simp [hne]
    intro he
    exact absurd (hpe.symm.trans he) h

/-- Looking up the overwritten id returns the stored row with the new
inventory value. -/
theorem findProduct_setInventory_eq (db : DB) (target v : ℤ) :
    findProduct (setInventory db target v) target
      = (findProduct db target).map (fun p => { p with inventory := v }) := by
  show ((db.products.map fun p => if p.id == target then { p with inventory := v } else p).find?
          fun p => p.id == target)
      = (db.products.find? fun p => p.id == target).map (fun p => { p with inventory := v })
  rw [List.find?_map]
  have hpred : ((fun p : Product => p.id == target) ∘
      (fun p : Product => if p.id == target then { p with inventory := v } else p))
      = fun p : Product => p.id == target := by
    funext p
    show (((if p.id == target then { p with inventory := v } else p) : Product).id == target)
        = (p.id == target)
    rw [setInv_map_id]
  rw [hpred]
  cases hf : db.products.find? (fun p => p.id == target) with
  | none => rfl
  | some p0 =>
    have hp0 : p0.id = target := by simpa using List.find?_some hf
    simp [hp0]

/-- `decrementStep` at the line's own product. -/
theorem findProduct_decrementStep_eq (db : DB) (l : LoadedLine) :
    findProduct (decrementStep db l) l.item.productId
      = (findProduct db l.item.productId).map
          (fun p => { p with inventory := l.product.inventory - l.item.quantity }) :=
  findProduct_setInventory_eq db l.item.productId (l.product.inventory - l.item.quantity)

/-- `decrementStep` at any other product. -/
theorem findProduct_decrementStep_ne (db : DB) (l : LoadedLine) (pid : ℤ)
    (h : pid ≠ l.item.productId) :
    findProduct (decrementStep db l) pid = findProduct db pid :=
  findProduct_setInventory_ne db pid l.item.productId (l.product.inventory - l.item.quantity) h

/-- The decrement loop leaves the orders table alone. -/
theorem foldl_decrement_orders (lines : List LoadedLine) (db : DB) :
    (lines.foldl decrementStep db).orders = db.orders := by
  induction lines generalizing db with
  | nil => rfl
  | cons l t ih =>
    rw [List.foldl_cons, ih]
    rfl

/-- The decrement loop leaves the order-items table alone. -/
theorem foldl_decrement_orderItems (lines : List LoadedLine) (db : DB) :
    (lines.foldl decrementStep db).orderItems = db.orderItems := by
  induction lines generalizing db with
  | nil => rfl
  | cons l t ih =>
    rw [List.foldl_cons, ih]
    rfl

/-- The decrement loop leaves the cart-items table alone. -/
theorem foldl_decrement_cartItems (lines : List LoadedLine) (db : DB) :
    (lines.foldl decrementStep db).cartItems = db.cartItems := by
  induction lines generalizing db with
  | nil => rfl
  | cons l t ih =>
    rw [List.foldl_cons, ih]
    rfl

/-- The decrement loop does not touch a product no line refers to. -/
theorem foldl_decrement_other (lines : List LoadedLine) (db : DB) (pid : ℤ)
    (h : ∀ l ∈ lines, l.item.productId ≠ pid) :
    findProduct (lines.foldl decrementStep db) pid = findProduct db pid := by
  induction lines generalizing db with
  | nil => rfl
  | cons l0 t ih =>
    rw [List.foldl_cons, ih (decrementStep db l0) (fun x hx => h x (List.mem_cons_of_mem _ hx))]
    exact findProduct_decrementStep_ne db l0 pid
      (fun he => h l0 (List.mem_cons_self l0 t) he.symm)

/-- After the decrement loop, each line's product holds exactly its loaded
inventory minus the purchased quantity — provided the lines name pairwise
distinct products (the cart invariant) and each line carries the product
row stored in the database. -/
theorem foldl_decrement_inventory (lines : List LoadedLine) (db : DB)
    (hnd : (lines.map (fun l => l.item.productId)).Nodup)
    (hp : ∀ l ∈ lines, findProduct db l.item.productId = some l.product) :
    ∀ l ∈ lines, findProduct (lines.foldl decrementStep db) l.item.productId
        = some { l.product with inventory := l.product.inventory - l.item.quantity } := by
  induction lines generalizing db with
  | nil => intro l hl; cases hl
  | cons l0 t ih =>
    rw [List.map_cons, List.nodup_cons] at hnd
    obtain ⟨hnotin, hndt⟩ := hnd
    intro l hl
    rw [List.foldl_cons]
    rcases List.mem_cons.mp hl with rfl | hmem
    · have hother : ∀ x ∈ t, x.item.productId ≠ l.item.productId := by
        intro x hx hxe
        exact hnotin (hxe ▸ List.mem_map_of_mem (fun y => y.item.productId) hx)
      rw [foldl_decrement_other t _ _ hother, findProduct_decrementStep_eq db l,
          hp l (List.mem_cons_self l t)]
      rfl
    · refine ih (decrementStep db l0) hndt ?_ l hmem
      intro x hx
      have hxne : x.item.productId ≠ l0.item.productId := by
        intro hxe
        exact hnotin (hxe ▸ List.mem_map_of_mem (fun y => y.item.productId) hx)
      rw [findProduct_decrementStep_ne db l0 x.item.productId hxne]
      exact hp x (List.mem_cons_of_mem _ hx)

/-- Reduction of POST /order on the success path: with nonempty recipient
fields, a loadable cart and the matching total, the response is 201 and the
successor state is the four write steps applied in program order. -/
theorem postOrder_success (now memberId : ℤ) (name phone address : String)
    (notes : Option String) (db : DB) (cart : Cart) (lines : List LoadedLine)
    (hname : name ≠ "") (hphone : phone ≠ "") (haddr : address ≠ "")
    (hload : loadMemberCart db memberId = some (cart, lines)) :
    postOrder now memberId name phone address (validateAmount now lines) notes db
      = (Resp.created,
          lines.foldl decrementStep
            (clearCartItems
              { db with
                  orders := db.orders ++
                    [newOrderRow now db.nextOrderId memberId name phone address
                      (validateAmount now lines) notes]
                  nextOrderId := db.nextOrderId + 1
                  orderItems := db.orderItems ++ lines.map (orderItemOfLine now db.nextOrderId) }
              cart.id)) := by
  unfold postOrder
  rw [hload]
  simp [hname, hphone, haddr]
  rfl

/-- Claim C4 (confirmed): for a member whose cart loads as `lines` (pairwise
distinct products, the cart invariant), a checkout submitted with the total
the server recomputes succeeds (201), appends exactly one order with status
"created", orderCreatedAt stamped and that total, appends one order item
per line snapshotting price = product.price and the resolved discountPrice,
deletes all of the member's cart lines (and no other member's), and leaves
each line's product inventory decremented by exactly its quantity. -/
theorem claim4_checkout_conservation (now memberId : ℤ) (name phone address : String)
    (notes : Option String) (db : DB) (cart : Cart) (lines : List LoadedLine)
    (hname : name ≠ "") (hphone : phone ≠ "") (haddr : address ≠ "")
    (hload : loadMemberCart db memberId = some (cart, lines))
    (hnd : (lines.map (fun l => l.item.productId)).Nodup) :
    (postOrder now memberId name phone address (validateAmount now lines) notes db).1
      = Resp.created
    ∧ (postOrder now memberId name phone address (validateAmount now lines) notes db).2.orders
        = db.orders ++
          [newOrderRow now db.nextOrderId memberId name phone address (validateAmount now lines) notes]
    ∧ (postOrder now memberId name phone address (validateAmount now lines) notes db).2.orderItems
        = db.orderItems ++ lines.map (orderItemOfLine now db.nextOrderId)
    ∧ (postOrder now memberId name phone address (validateAmount now lines) notes db).2.cartItems
        = db.cartItems.filter (fun ci => !(ci.cartId == cart.id))
    ∧ ∀ l ∈ lines,
        getInventory (postOrder now memberId name phone address (validateAmount now lines) notes db).2
            l.item.productId
          = some (l.product.inventory - l.item.quantity) := by
  rw [postOrder_success now memberId name phone address notes db cart lines hname hphone haddr hload]
  refine ⟨rfl, ?_, ?_, ?_, ?_⟩
  · rw [foldl_decrement_orders]
    rfl
  · rw [foldl_decrement_orderItems]
    rfl
  · rw [foldl_decrement_cartItems]
    rfl
  · intro l hl
    have hp3 : ∀ x ∈ lines,
        findProduct
          (clearCartItems
            { db with
                orders := db.orders ++
                  [newOrderRow now db.nextOrderId memberId name phone address
                    (validateAmount now lines) notes]
                nextOrderId := db.nextOrderId + 1
                orderItems := db.orderItems ++ lines.map (orderItemOfLine now db.nextOrderId) }
            cart.id)
          x.item.productId = some x.product := by
      intro x hx
      have h0 := loadMemberCart_lines db memberId cart lines hload
      exact loadLines_product db (cartLinesOf db cart.id) lines h0.1 x hx
    unfold getInventory
    rw [foldl_decrement_inventory lines _ hnd hp3 l hl]
    rfl

/-- Witness for C4 at a concrete state: one cart line of 2 units of product
1 (price 10, inventory 5, no promotion); checkout with the matching total
succeeds and leaves inventory 3. -/
theorem claim4_witness :
    (postOrder 0 1 "n" "p" "a" (validateAmount 0 linesC4) none dbC4).1 = Resp.created
    ∧ (postOrder 0 1 "n" "p" "a" (validateAmount 0 linesC4) none dbC4).2.orders
        = dbC4.orders ++ [newOrderRow 0 dbC4.nextOrderId 1 "n" "p" "a" (validateAmount 0 linesC4) none]
    ∧ (postOrder 0 1 "n" "p" "a" (validateAmount 0 linesC4) none dbC4).2.orderItems
        = dbC4.orderItems ++ linesC4.map (orderItemOfLine 0 dbC4.nextOrderId)
    ∧ (postOrder 0 1 "n" "p" "a" (validateAmount 0 linesC4) none dbC4).2.cartItems
        = dbC4.cartItems.filter (fun ci => !(ci.cartId == (1 : ℤ)))
    ∧ ∀ l ∈ linesC4,
        getInventory (postOrder 0 1 "n" "p" "a" (validateAmount 0 linesC4) none dbC4).2
            l.item.productId
          = some (l.product.inventory - l.item.quantity) :=
  claim4_checkout_conservation 0 1 "n" "p" "a" none dbC4 { id := 1, memberId := 1 } linesC4
    (by decide) (by decide) (by decide) (by decide) (by decide)

/-- Claim C5 (confirmed): whenever the submitted total differs from the
recomputed server total, POST /order answers with the correct total and the
database is returned exactly as it was — no order, no order items, no
inventory change, no cart change. -/
theorem claim5_amount_mismatch_aborts (now memberId : ℤ) (name phone address : String)
    (notes : Option String) (total : ℤ) (db : DB) (cart : Cart) (lines : List LoadedLine)
    (hname : name ≠ "") (hphone : phone ≠ "") (haddr : address ≠ "")
    (hload : loadMemberCart db memberId = some (cart, lines))
    (hne : total ≠ validateAmount now lines) :
    postOrder now memberId name phone address total notes db
      = (Resp.amountMismatch (validateAmount now lines), db) := by
  unfold postOrder
  rw [hload]
  simp [hname, hphone, haddr, hne]

/-- Witness for C5: the cart of `dbC4` totals 20; submitting 21 is rejected
with correct amount 20 and the state is unchanged. -/
theorem claim5_witness :
    postOrder 0 1 "n" "p" "a" 21 none dbC4
      = (Resp.amountMismatch (validateAmount 0 linesC4), dbC4) :=
  claim5_amount_mismatch_aborts 0 1 "n" "p" "a" none 21 dbC4 { id := 1, memberId := 1 } linesC4
    (by decide) (by decide) (by decide) (by decide) (by decide)

/-- Claim C9 (confirmed): a member whose cart exists but has no lines checks
out successfully with totalAmount 0 and valid recipient fields: one order
with totalAmount 0 is created and no order item, and nothing else changes
(the cart-clearing delete touches only the member's — empty — set of
lines). -/
theorem claim9_empty_cart_checkout (now memberId : ℤ) (name phone address : String)
    (notes : Option String) (db : DB) (cart : Cart)
    (hname : name ≠ "") (hphone : phone ≠ "") (haddr : address ≠ "")
    (hload : loadMemberCart db memberId = some (cart, [])) :
    postOrder now memberId name phone address 0 notes db
      = (Resp.created,
          { db with
              orders := db.orders ++ [newOrderRow now db.nextOrderId memberId name phone address 0 notes]
              nextOrderId := db.nextOrderId + 1
              cartItems := db.cartItems.filter (fun ci => !(ci.cartId == cart.id)) }) := by
  have h := postOrder_success now memberId name phone address notes db cart [] hname hphone haddr hload
  rw [show validateAmount now ([] : List LoadedLine) = 0 from rfl] at h
  rw [h]
  simp [clearCartItems]

/-- Witness for C9: checking out the empty cart of `dbC9` with total 0. -/
theorem claim9_witness :
    postOrder 0 1 "n" "p" "a" 0 none dbC9
      = (Resp.created,
          { dbC9 with
              orders := dbC9.orders ++ [newOrderRow 0 dbC9.nextOrderId 1 "n" "p" "a" 0 none]
              nextOrderId := dbC9.nextOrderId + 1
              cartItems := dbC9.cartItems.filter (fun ci => !(ci.cartId == (1 : ℤ))) }) :=
  claim9_empty_cart_checkout 0 1 "n" "p" "a" none dbC9 { id := 1, memberId := 1 }
    (by decide) (by decide) (by decide) (by decide)

/-- Claim C10 (confirmed): PATCH /cart for a member with a cart: when no line
of that cart has the given productId, the request answers 204 and the whole
state is exactly unchanged; when the line exists, the given quantity — any
integer, with no inventory, listing or positivity check — is written
unconditionally onto it and nothing else changes. -/
theorem claim10_set_quantity (memberId productId quantity : ℤ) (db : DB) (cart : Cart)
    (hcart : memberCart db memberId = some cart) :
    (db.cartItems.find? (fun ci => ci.cartId == cart.id && ci.productId == productId) = none →
      patchCart memberId productId quantity db = (Resp.noContent, db))
    ∧ (db.cartItems.find? (fun ci => ci.cartId == cart.id && ci.productId == productId) ≠ none →
      patchCart memberId productId quantity db
        = (Resp.noContent,
            { db with cartItems := db.cartItems.map (fun ci =>
                if ci.cartId == cart.id && ci.productId == productId
                then { ci with quantity := quantity } else ci) })) := by
  constructor
  · intro hfind
    unfold patchCart
    simp only [hcart, hfind]
  · intro hfind
    unfold patchCart
    simp only [hcart]
    cases hf : db.cartItems.find? (fun ci => ci.cartId == cart.id && ci.productId == productId) with
    | none => exact absurd hf hfind
    | some ci0 => rfl

/-- Witness for C10 on `dbC10` (cart 1 of member 1 holds product 5): patching
absent product 7 is a 204 no-op, and patching product 5 to quantity −3 (an
un-validated value) overwrites the line. -/
theorem claim10_witness :
    (patchCart 1 7 4 dbC10 = (Resp.noContent, dbC10))
    ∧ (patchCart 1 5 (-3) dbC10
        = (Resp.noContent,
            { dbC10 with cartItems := dbC10.cartItems.map (fun ci =>
                if ci.cartId == (1 : ℤ) && ci.productId == (5 : ℤ)
                then { ci with quantity := (-3 : ℤ) } else ci) })) :=
  ⟨(claim10_set_quantity 1 7 4 dbC10 { id := 1, memberId := 1 } (by decide)).1 (by decide),
   (claim10_set_quantity 1 5 (-3) dbC10 { id := 1, memberId := 1 } (by decide)).2 (by decide)⟩
